/-
Verification of the trivia-bots orchestration core.

Shallow embedding of the JavaScript sources:
  src/utils/timing.js, src/players/behaviorEngine.js,
  src/crowdlive/gameState.js, the TriviaBot supervisor and the
  GameSession coordinator (gameSession.js), and the PlayerPool
  (playerPool.js).

Numbers are modelled as rationals; every call to Math.random() in the
source becomes an explicit rational parameter, constrained to [0, 1)
where a claim needs it.
-/
import Mathlib

namespace TriviaBots

/-! ### Timing utilities (src/utils/timing.js) -/

/-- `randomDelay(min, max)` from timing.js:
`Math.floor(Math.random() * (max - min + 1)) + min`, with the draw `r`
standing for `Math.random()`. -/
def randomDelay (lo hi : ℕ) (r : ℚ) : ℤ :=
  ⌊r * ((hi : ℚ) - (lo : ℚ) + 1)⌋ + lo

/-- Outcome of `calculateJoinTiming` in timing.js: `shouldJoin`, the delay
in milliseconds, and the reason tag. -/
structure JoinTiming where
  shouldJoin : Bool
  delay : ℤ
  reason : String
  deriving Repr, DecidableEq

/-- The join-timing fields of a profile (timing.js destructures only these
two, with defaults 0.15 / 0.05 that a constructed profile overrides). -/
structure JoinProfile where
  lateJoinChance : ℚ
  noShowChance : ℚ
  deriving Repr, DecidableEq

/-- `calculateJoinTiming(profile)` from timing.js.  `d1` is the no-show
draw, `d2` the late-join draw, `d3` the delay draw. -/
def calculateJoinTiming (p : JoinProfile) (d1 d2 d3 : ℚ) : JoinTiming :=
  if d1 < p.noShowChance then
    { shouldJoin := false, delay := 0, reason := "no-show" }
  else if d2 < p.lateJoinChance then
    { shouldJoin := true, delay := randomDelay 30000 120000 d3, reason := "late" }
  else
    { shouldJoin := true, delay := randomDelay 1000 10000 d3, reason := "on-time" }

/-! ### Behavior engine (src/players/behaviorEngine.js) -/

/-- The profile fields consumed by the behavior engine. `knowledgeAreas`
is the category-override table (an association list standing for the JS
object). -/
structure Profile where
  accuracy : ℚ
  knowledgeAreas : List (String × ℚ)
  consistency : ℚ
  personality : String
  deriving Repr, DecidableEq

/-- Mutable per-player state (`class PlayerState`), minus the back
pointer to the profile. -/
structure PlayerState where
  questionsAnswered : ℕ
  correctAnswers : ℕ
  currentStreak : ℤ
  isHot : Bool
  isCold : Bool
  lastAnswerCorrect : Option Bool
  fatigue : ℚ
  deriving Repr, DecidableEq

/-- A freshly constructed `PlayerState` (the constructor). -/
def PlayerState.init : PlayerState :=
  { questionsAnswered := 0, correctAnswers := 0, currentStreak := 0,
    isHot := false, isCold := false, lastAnswerCorrect := none, fatigue := 0 }

/-- `PlayerState.recordAnswer(wasCorrect)`. -/
def PlayerState.recordAnswer (s : PlayerState) (wasCorrect : Bool) : PlayerState :=
  let streak := if wasCorrect then max 0 s.currentStreak + 1 else min 0 s.currentStreak - 1
  { questionsAnswered := s.questionsAnswered + 1,
    correctAnswers := s.correctAnswers + (if wasCorrect then 1 else 0),
    currentStreak := streak,
    isHot := streak ≥ 3,
    isCold := streak ≤ -3,
    lastAnswerCorrect := some wasCorrect,
    fatigue := s.fatigue + 2/100 }

/-- `PlayerState.reset()`. -/
def PlayerState.reset (_ : PlayerState) : PlayerState :=
  { questionsAnswered := 0, correctAnswers := 0, currentStreak := 0,
    isHot := false, isCold := false, lastAnswerCorrect := none, fatigue := 0 }

/-- `PlayerState.getAccuracyModifier()`. -/
def PlayerState.getAccuracyModifier (s : PlayerState) : ℚ :=
  (if s.isHot then (1/10 : ℚ) else 0)
    - (if s.isCold then (1/10 : ℚ) else 0)
    - s.fatigue * (1/2)

/-- Category override lookup: in JS, `profile.knowledgeAreas &&
profile.knowledgeAreas[category]` is truthy only when the entry exists
and is a non-zero number. -/
def categoryAccuracy (p : Profile) (category : String) : ℚ :=
  match p.knowledgeAreas.lookup category with
  | some v => if v ≠ 0 then v else p.accuracy
  | none => p.accuracy

/-- The effective probability computed by
`BehaviorEngine.shouldAnswerCorrectly` just before the Bernoulli roll
(the value of `accuracy` after the clamp on line 121).  `jitter` stands
for the `Math.random()` of line 118. -/
def effectiveAccuracy (p : Profile) (s : PlayerState) (category : String)
    (difficulty : ℚ) (jitter : ℚ) : ℚ :=
  let acc0 := categoryAccuracy p category
  let acc1 := acc0 + s.getAccuracyModifier
  let acc2 := acc1 - difficulty * (2/10)
  let variance := (1 - p.consistency) * (2/10)
  let acc3 := acc2 + (jitter - 1/2) * variance
  max (1/10) (min (95/100) acc3)

/-- `shouldAnswerCorrectly`: the Bernoulli roll against the clamped
probability. -/
def shouldAnswerCorrectly (p : Profile) (s : PlayerState) (category : String)
    (difficulty : ℚ) (jitter roll : ℚ) : Bool :=
  roll < effectiveAccuracy p s category difficulty jitter

/-- Loop body of `BehaviorEngine.weightedRandom`: running index `i`,
remaining value of the mutable `random`; returns `i` at the first weight
that brings the remainder to ≤ 0, and `length - 1` (as reached index
minus one) after falling through. -/
def weightedRandomGo : List ℚ → ℚ → ℕ → ℕ
  | [], _, i => i - 1
  | w :: ws, rem, i => if rem - w ≤ 0 then i else weightedRandomGo ws (rem - w) (i + 1)

/-- `BehaviorEngine.weightedRandom(weights)`, with `r` standing for
`Math.random()`. -/
def weightedRandom (weights : List ℚ) (r : ℚ) : ℕ :=
  weightedRandomGo weights (r * weights.sum) 0

/-- The per-option weights of the `guess-biased` branch of
`selectAnswer`: `Math.max(0.1, 1 - i * 0.2)` for each option index. -/
def biasedWeights (n : ℕ) : List ℚ :=
  (List.range n).map fun i : ℕ => max (1/10) (1 - (i : ℚ) * (2/10))

/-- Decision record returned by `selectAnswer` (delay and reason carried
along). -/
structure AnswerDecision where
  index : ℕ
  reason : String
  expectedCorrect : Bool
  deriving Repr, DecidableEq

/-- `BehaviorEngine.selectAnswer(profile, options, correctIndex, opts)`,
restricted to the index selection (the delay computation is independent
of the index).  `shouldBeCorrect` is the result of the
`shouldAnswerCorrectly` roll; `selDraw` stands for the `Math.random()`
used by whichever selection branch runs; `n` is `options.length`. -/
def selectAnswerIndex (n : ℕ) (correctIndex : Option ℕ)
    (shouldBeCorrect : Bool) (selDraw : ℚ) : AnswerDecision :=
  match correctIndex with
  | some c =>
    if shouldBeCorrect then
      { index := c, reason := "correct-known", expectedCorrect := true }
    else
      let wrongIndices := (List.range n).filter (· ≠ c)
      { index := wrongIndices.getD (⌊selDraw * wrongIndices.length⌋).toNat 0,
        reason := "intentional-wrong", expectedCorrect := false }
  | none =>
    if shouldBeCorrect then
      { index := weightedRandom (biasedWeights n) selDraw,
        reason := "guess-biased", expectedCorrect := true }
    else
      { index := (⌊selDraw * n⌋).toNat, reason := "guess-random",
        expectedCorrect := false }

/-! ### Game state detection (src/crowdlive/gameState.js) -/

/-- The `GameStates` enumeration. -/
inductive GameState where
  | registration | waiting | countdown | question | answerReveal
  | ranking | betweenQuestions | gameEnded | error | unknown
  deriving Repr, DecidableEq

/-- Does `needle` occur as a contiguous run in `hay`?  (Checked at every
suffix.) -/
def includesAux (needle : List Char) : List Char → Bool
  | [] => needle.isEmpty
  | c :: cs => needle.isPrefixOf (c :: cs) || includesAux needle cs

/-- JS `haystack.includes(needle)`. -/
def strIncludes (hay needle : String) : Bool :=
  includesAux needle.data hay.data

/-- Digit-run to number, as `parseInt` reads the capture of `(\d+)`. -/
def digitsToNat (ds : List Char) : ℕ :=
  ds.foldl (fun acc c => acc * 10 + (c.toNat - '0'.toNat)) 0

/-- Try the regex `(\d+):(\d{2})` anchored at the head of `cs`: a maximal
digit run (greedy `\d+`; a shorter run would put a digit where `:` is
required, so greedy matching is exact), then `:`, then two digits.
Returns (minutes, seconds). -/
def matchTimerAt (cs : List Char) : Option (ℕ × ℕ) :=
  let ds := cs.takeWhile Char.isDigit
  if ds.isEmpty then none
  else
    match cs.drop ds.length with
    | ':' :: a :: b :: _ =>
      if a.isDigit && b.isDigit then
        some (digitsToNat ds, (a.toNat - '0'.toNat) * 10 + (b.toNat - '0'.toNat))
      else none
    | _ => none

/-- Leftmost match of `(\d+):(\d{2})` over the text, as
`pageText.match(/(\d+):(\d{2})/)` finds it. -/
def findTimer : List Char → Option (ℕ × ℕ)
  | [] => none
  | c :: cs =>
    match matchTimerAt (c :: cs) with
    | some r => some r
    | none => findTimer cs

/-- One observation of the page, as `detectState` gathers it: the
lowercased `document.body.innerText`, the answer-button count from the
two `$$` selector queries, and whether the registration-form `$` query
found a field.  The timer is re-derived from the text below, as in the
source. -/
structure Snapshot where
  pageText : String
  answerButtonCount : ℕ
  hasRegistrationForm : Bool
  deriving Repr, DecidableEq

/-- `timerSeconds` as computed on lines 90–94 of gameState.js (−1 when no
match). -/
def timerSeconds (snap : Snapshot) : ℤ :=
  match findTimer snap.pageText.data with
  | some (m, s) => (m : ℤ) * 60 + s
  | none => -1

/-- The classification cascade of `GameStateManager.detectState`, given a
snapshot and the currently committed state.  The final JS fallback
`this.currentState || WAITING` always yields `currentState`, because every
state constant is a non-empty (truthy) string. -/
def detectState (snap : Snapshot) (current : GameState) : GameState :=
  if strIncludes snap.pageText "welcome back" ||
      strIncludes snap.pageText "continue playing" then
    .registration
  else if snap.hasRegistrationForm then
    .registration
  else if strIncludes snap.pageText "you finished" ||
      strIncludes snap.pageText "game over" ||
      strIncludes snap.pageText "thank you for playing" ||
      strIncludes snap.pageText "final results" then
    .gameEnded
  else if snap.answerButtonCount > 0 && timerSeconds snap > 0 then
    .question
  else if strIncludes snap.pageText "your ranking" then
    .ranking
  else if timerSeconds snap == 0 || strIncludes snap.pageText "time has run out" then
    .answerReveal
  else if strIncludes snap.pageText "will be activated shortly" ||
      strIncludes snap.pageText "waiting" ||
      strIncludes snap.pageText "game will start" ||
      strIncludes snap.pageText "hang tight" then
    .waiting
  else if (findTimer snap.pageText.data).isSome then
    .betweenQuestions
  else if strIncludes snap.pageText "something went wrong" ||
      strIncludes snap.pageText "unable to join" ||
      strIncludes snap.pageText "error occurred" then
    .error
  else if strIncludes snap.pageText "sign out" ||
      strIncludes snap.pageText "my profile" then
    .waiting
  else
    current

/-- The game-ended keyword test of rule 3 (line 112). -/
def hasGameEndedKeywords (snap : Snapshot) : Bool :=
  strIncludes snap.pageText "you finished" || strIncludes snap.pageText "game over" ||
    strIncludes snap.pageText "thank you for playing" ||
    strIncludes snap.pageText "final results"

/-- The returning-player keyword test of rule 1 (line 101). -/
def hasReturningPlayerKeywords (snap : Snapshot) : Bool :=
  strIncludes snap.pageText "welcome back" || strIncludes snap.pageText "continue playing"

/-! ### TriviaBot supervisor (gameSession.js, `class TriviaBot`) -/

/-- The `gameResults` record owned by one bot. -/
structure GameResults where
  questionsAnswered : ℕ
  correctAnswers : ℕ
  finalScore : Option ℤ
  finalRank : Option ℤ
  deriving Repr, DecidableEq

/-- `gameResults` as the constructor builds it. -/
def GameResults.init : GameResults :=
  { questionsAnswered := 0, correctAnswers := 0, finalScore := none, finalRank := none }

/-- The retry-relevant fields of a `TriviaBot`. -/
structure BotState where
  retryCount : ℕ
  maxRetries : ℕ
  isRunning : Bool
  deriving Repr, DecidableEq

/-- `TriviaBot.attemptRecovery()`: refuses and stops the bot when the
lifetime budget is spent; otherwise consumes one unit of budget and
reports whether the teardown/re-init/re-navigation block succeeded
(`reinitOk`). -/
def attemptRecovery (s : BotState) (reinitOk : Bool) : Bool × BotState :=
  if s.retryCount ≥ s.maxRetries then
    (false, { s with isRunning := false })
  else
    (reinitOk, { s with retryCount := s.retryCount + 1 })

/-- The success tail of `TriviaBot.joinGame`: `this.retryCount = 0`
(line "Reset retry count on success"). -/
def joinSucceeded (s : BotState) : BotState :=
  { s with retryCount := 0 }

/-- Events that touch the retry counter during a bot's lifetime. -/
inductive BotEvent where
  | recovery (reinitOk : Bool)
  | joinSuccess
  deriving Repr, DecidableEq

/-- Apply one event to the retry state. -/
def botStep (s : BotState) : BotEvent → BotState
  | .recovery ok => (attemptRecovery s ok).2
  | .joinSuccess => joinSucceeded s

/-- Apply a sequence of events. -/
def botRun (s : BotState) : List BotEvent → BotState
  | [] => s
  | e :: es => botRun (botStep s e) es

/-! #### The phase-dispatch loop (`TriviaBot.playGame`) -/

/-- What one `QUESTION` dispatch observes from the driver: the number of
enumerated options, whether the answer click went through, and the
correctness signal. -/
structure QuestionObs where
  optionsLen : ℕ
  clicked : Bool
  wasCorrect : Option Bool
  deriving Repr, DecidableEq

/-- One iteration's classified phase together with the driver
observations that iteration would consume. -/
inductive PhaseObs where
  | question (q : QuestionObs)
  | ranking
  | answerReveal
  | betweenQuestions
  | gameEnded (finalScore : Option ℤ)
  | registration
  | errorPhase
  | waiting
  | countdown
  | unknown
  deriving Repr, DecidableEq

/-- The loop state of `playGame`: the cooperative running flag, the
consecutive-error counter, and the results record. -/
structure PlayState where
  isRunning : Bool
  errorCount : ℕ
  results : GameResults
  deriving Repr, DecidableEq

/-- `maxErrors` in `playGame`. -/
def maxErrors : ℕ := 10

/-- Effect of `handleQuestion` on `gameResults` (clicking bumps
`questionsAnswered`; a confirmed correct signal bumps
`correctAnswers`). -/
def handleQuestion (g : GameResults) (q : QuestionObs) : GameResults :=
  if q.optionsLen = 0 then g
  else if q.clicked then
    { g with
      questionsAnswered := g.questionsAnswered + 1,
      correctAnswers := g.correctAnswers + (if q.wasCorrect = some true then 1 else 0) }
  else g

/-- One iteration of the `switch` in `playGame`.  Every phase except
`ERROR` and `UNKNOWN` resets the consecutive-error counter;
`GAME_ENDED` records the final score and clears the running flag;
`ERROR` increments the counter and stops the loop once it reaches
`maxErrors`. -/
def dispatchStep (s : PlayState) : PhaseObs → PlayState
  | .question q => { s with errorCount := 0, results := handleQuestion s.results q }
  | .ranking => { s with errorCount := 0 }
  | .answerReveal => { s with errorCount := 0 }
  | .betweenQuestions => { s with errorCount := 0 }
  | .gameEnded score =>
    { s with isRunning := false, results := { s.results with finalScore := score } }
  | .registration => { s with errorCount := 0 }
  | .errorPhase =>
    let n := s.errorCount + 1
    if n ≥ maxErrors then { s with errorCount := n, isRunning := false }
    else { s with errorCount := n }
  | .waiting => { s with errorCount := 0 }
  | .countdown => { s with errorCount := 0 }
  | .unknown => s

/-- The `while (this.isRunning)` loop over a finite observation trace. -/
def playLoop (s : PlayState) : List PhaseObs → PlayState
  | [] => s
  | o :: os => if s.isRunning then playLoop (dispatchStep s o) os else s

/-- `playGame` run from its entry state (`isRunning := true`,
`errorCount = 0`) over a trace, returning `this.gameResults` alongside
the final loop state. -/
def playGame (g : GameResults) (trace : List PhaseObs) : PlayState :=
  playLoop { isRunning := true, errorCount := 0, results := g } trace

/-! ### Player pool bookkeeping (playerPool.js) -/

/-- What `this.results` can hold for a player after `startBot` finishes:
the bot's results object, `null` (the bot's `run` returned `null`:
no-show or game never started), or the `{ error }` record written when
`run` threw. -/
inductive RecordedResult where
  | ok (r : GameResults)
  | nullResult
  | err (msg : String)
  deriving Repr, DecidableEq

/-- JS truthiness test `result && !result.error` used by `getResults`. -/
def countsAsCompleted : RecordedResult → Bool
  | .ok _ => true
  | .nullResult => false
  | .err _ => false

/-- Aggregated counters of `PlayerPool.getResults()` over the recorded
results (iteration order of the map does not matter for the counts). -/
structure PoolResults where
  completed : ℕ
  failed : ℕ
  deriving Repr, DecidableEq

/-- `PlayerPool.getResults()`: each recorded result goes to `completed`
when `result && !result.error`, otherwise to `failed`. -/
def getResults (results : List (String × RecordedResult)) : PoolResults :=
  results.foldl
    (fun acc kv =>
      if countsAsCompleted kv.2 then { acc with completed := acc.completed + 1 }
      else { acc with failed := acc.failed + 1 })
    { completed := 0, failed := 0 }

/-- How one bot's `run` outcome is recorded by `startBot`: an exception
becomes `{ error }`, a `null` return is stored as `null`, a results
object is stored as-is. -/
inductive RunOutcome where
  | returned (r : GameResults)
  | returnedNull
  | threw (msg : String)
  deriving Repr, DecidableEq

/-- The `try/catch` of `PlayerPool.startBot` around `bot.run`. -/
def recordOutcome : RunOutcome → RecordedResult
  | .returned r => .ok r
  | .returnedNull => .nullResult
  | .threw msg => .err msg

/-- The early-return skeleton of `TriviaBot.run`: a no-show join decision
(`joinGame` returning `false`) or a game that never starts makes `run`
return `null`; otherwise it returns the loop's results (exceptions are
modelled by `RunOutcome.threw` at the recording site). -/
def runOutcome (joinTiming : JoinTiming) (gameStarted : Bool)
    (loopResults : GameResults) : RunOutcome :=
  if !joinTiming.shouldJoin then .returnedNull
  else if !gameStarted then .returnedNull
  else .returned loopResults

/-! ### Session coordinator (gameSession.js, `class GameSession`) -/

inductive SessionStatus where
  | idle | initializing | running | completed | failed | stopped
  deriving Repr, DecidableEq

/-- The lifecycle-relevant fields of a `GameSession`. -/
structure Session where
  status : SessionStatus
  hasPool : Bool
  playerCount : ℕ
  gameUrl : String
  deriving Repr, DecidableEq

inductive SessionError where
  | cannotInitialize (inState : SessionStatus)
  | noPlayers
  | noUrl
  deriving Repr, DecidableEq

/-- `GameSession.initialize()`: only legal from `idle`; moves to
`initializing` and creates the pool. -/
def Session.initializeStep (s : Session) : Except (SessionError × Session) Session :=
  if s.status ≠ .idle then .error (.cannotInitialize s.status, s)
  else .ok { s with status := .initializing, hasPool := true }

/-- The prelude of `GameSession.start()` up to the point where
`pool.startAll` is invoked: implicit `initialize()` when no pool exists,
then the roster and URL checks, then the transition to `running`.
Errors carry the session as mutated up to the throw. -/
def Session.startPrelude (s : Session) : Except (SessionError × Session) Session :=
  match (if s.hasPool then .ok s else s.initializeStep :
      Except (SessionError × Session) Session) with
  | .error e => .error e
  | .ok s1 =>
    if s1.playerCount = 0 then .error (.noPlayers, s1)
    else if s1.gameUrl = "" then .error (.noUrl, s1)
    else .ok { s1 with status := .running }

/-- Is an error one of the two configuration errors of `start()`? -/
def SessionError.isConfig : SessionError → Bool
  | .noPlayers => true
  | .noUrl => true
  | .cannotInitialize _ => false

/-! ### Pool admission control (`PlayerPool.startAll` / `startBot`)

`startAll` is a cooperative (single-threaded, await-interleaved) loop:
for each roster index, it busy-polls the gate `activeBots.size >=
maxConcurrent`, optionally sleeps the stagger delay, then calls
`startBot`, which synchronously adds the id to `activeBots` before
awaiting `bot.run`; the `finally` of `startBot` removes the id when the
run settles.  Interleavings are modelled as a small-step relation: the
admission loop can pass the gate only while the active count is below
the bound, and between the gate check and the synchronous add (the
stagger await) only completions of already-running bots can be
scheduled.  `complete` steps model a launched `bot.run` settling. -/

/-- Program counter of the admission loop. -/
inductive AdmissionPc where
  | atGate      -- at the top of iteration `launched`, before/inside the busy-poll
  | passedGate  -- gate observed open; stagger sleep pending before the add
  | done        -- the `for` loop has exhausted the roster
  deriving Repr, DecidableEq

/-- Bookkeeping of `startAll`: how many bots were launched (= the loop
index), how many of the launched runs have settled, and the loop pc.
The size of `activeBots` is `launched - completed` (admission adds,
the `finally` removes, ids are distinct map keys). -/
structure PoolState where
  launched : ℕ
  completed : ℕ
  pc : AdmissionPc
  deriving Repr, DecidableEq

/-- `activeBots.size`. -/
def PoolState.activeCount (s : PoolState) : ℕ := s.launched - s.completed

/-- State at entry of `startAll` over a roster of `n` bots. -/
def poolInit (n : ℕ) : PoolState :=
  { launched := 0, completed := 0, pc := if 0 < n then .atGate else .done }

/-- One scheduler step during `startAll` over `n` registered bots with
bound `mc` (no `stopAll` in flight, so `isRunning` stays true). -/
inductive PoolStep (n mc : ℕ) : PoolState → PoolState → Prop where
  | gatePass (s : PoolState) :
      s.pc = .atGate → s.launched < n → s.activeCount < mc →
      PoolStep n mc s { s with pc := .passedGate }
  | launch (s : PoolState) :
      s.pc = .passedGate →
      PoolStep n mc s
        { launched := s.launched + 1, completed := s.completed,
          pc := if s.launched + 1 < n then .atGate else .done }
  | complete (s : PoolState) :
      s.completed < s.launched →
      PoolStep n mc s { s with completed := s.completed + 1 }

/-- Reachability from the entry state of `startAll`. -/
def PoolReachable (n mc : ℕ) (s : PoolState) : Prop :=
  Relation.ReflTransGen (PoolStep n mc) (poolInit n) s

/-- No scheduler step applies: the admission loop is finished and every
launched run has settled (the moment `Promise.all` resolves). -/
def PoolStuck (n mc : ℕ) (s : PoolState) : Prop :=
  ∀ s', ¬ PoolStep n mc s s'

/-- The inductive invariant of the admission loop. -/
def PoolInv (n mc : ℕ) (s : PoolState) : Prop :=
  s.completed ≤ s.launched ∧ s.launched ≤ n ∧ s.activeCount ≤ mc ∧
    (s.pc = .passedGate → s.activeCount < mc ∧ s.launched < n) ∧
    (s.pc = .done → s.launched = n) ∧
    (s.pc = .atGate → s.launched < n)

/-! ### Auxiliary definitions used by the statements -/

/-- Fold a sequence of answer outcomes through `recordAnswer`. -/
def applyAnswers (s : PlayerState) : List Bool → PlayerState
  | [] => s
  | b :: bs => applyAnswers (s.recordAnswer b) bs

/-- The derived flags agree with the signed streak exactly as the spec
describes: hot ↔ streak ≥ 3, cold ↔ streak ≤ −3. -/
def flagsOk (s : PlayerState) : Bool :=
  (s.isHot == decide (s.currentStreak ≥ 3)) &&
    (s.isCold == decide (s.currentStreak ≤ -3))

/-- Is an error recorded in a stored result?  (Only the `{ error }`
record written by `startBot`'s catch carries one.) -/
def RecordedResult.hasError : RecordedResult → Bool
  | .err _ => true
  | .ok _ => false
  | .nullResult => false

/-! ## Theorems -/

theorem recordAnswer_flagsOk (s : PlayerState) (b : Bool) :
    flagsOk (s.recordAnswer b) = true := by
  simp [flagsOk, PlayerState.recordAnswer]

theorem reset_flagsOk (s : PlayerState) : flagsOk s.reset = true := by
  simp [flagsOk, PlayerState.reset]

theorem applyAnswers_flagsOk (s : PlayerState) (hs : flagsOk s = true)
    (seq : List Bool) : flagsOk (applyAnswers s seq) = true := by
  induction seq generalizing s with
  | nil => exact hs
  | cons b bs ih => exact ih _ (recordAnswer_flagsOk s b)

theorem flagsOk_not_both (s : PlayerState) (hs : flagsOk s = true) :
    (s.isHot && s.isCold) = false := by
  simp only [flagsOk, Bool.and_eq_true, beq_iff_eq] at hs
  rcases hs with ⟨h1, h2⟩
  rw [h1, h2]
  simp only [Bool.and_eq_false_iff, decide_eq_false_iff_not]
  by_cases h : s.currentStreak ≥ 3
  · right; omega
  · left; omega

/-- C7: starting from a freshly reset player state, after any sequence of
`recordAnswer` calls the derived flags satisfy `isHot ↔ streak ≥ 3` and
`isCold ↔ streak ≤ −3`, never both; moreover the flag/streak agreement is
preserved by every single `recordAnswer` and by `reset`. -/
theorem hot_cold_streak_invariant :
    (∀ (s : PlayerState) (b : Bool), flagsOk (s.recordAnswer b) = true) ∧
    (∀ s : PlayerState, flagsOk s.reset = true) ∧
    (∀ (s : PlayerState) (seq : List Bool),
      flagsOk (applyAnswers s.reset seq) = true) ∧
    (∀ (s : PlayerState) (seq : List Bool),
      ((applyAnswers s.reset seq).isHot && (applyAnswers s.reset seq).isCold) = false) :=
  ⟨recordAnswer_flagsOk, reset_flagsOk,
    fun s seq => applyAnswers_flagsOk _ (reset_flagsOk s) seq,
    fun s seq => flagsOk_not_both _ (applyAnswers_flagsOk _ (reset_flagsOk s) seq)⟩

/-- C8: the clamped probability computed inside `shouldAnswerCorrectly`
just before the Bernoulli roll lies in [0.10, 0.95] for every profile,
player state, category, difficulty and jitter draw. -/
theorem decideCorrectness_probability_in_bounds :
    ∀ (p : Profile) (s : PlayerState) (category : String) (difficulty jitter : ℚ),
      1/10 ≤ effectiveAccuracy p s category difficulty jitter ∧
        effectiveAccuracy p s category difficulty jitter ≤ 95/100 := by
  intro p s category difficulty jitter
  unfold effectiveAccuracy
  constructor
  · exact le_max_left _ _
  · exact max_le (by norm_num) (min_le_left _ _)

theorem randomDelay_bounds (lo hi : ℕ) (r : ℚ) (hlo : lo ≤ hi)
    (h0 : 0 ≤ r) (h1 : r < 1) :
    (lo : ℤ) ≤ randomDelay lo hi r ∧ randomDelay lo hi r ≤ hi := by
  unfold randomDelay
  have hcast : (lo : ℚ) ≤ (hi : ℚ) := by exact_mod_cast hlo
  have hpos : (0 : ℚ) < (hi : ℚ) - lo + 1 := by linarith
  have hub : r * ((hi : ℚ) - lo + 1) < (hi : ℚ) - lo + 1 := by nlinarith
  have hlb : (0 : ℚ) ≤ r * ((hi : ℚ) - lo + 1) := mul_nonneg h0 hpos.le
  have hfl : 0 ≤ ⌊r * ((hi : ℚ) - lo + 1)⌋ := Int.floor_nonneg.mpr hlb
  have hfu : ⌊r * ((hi : ℚ) - lo + 1)⌋ < (hi : ℤ) - lo + 1 := by
    apply Int.floor_lt.mpr
    push_cast
    exact hub
  omega

/-- C9: a profile with `noShowChance = 1` always yields the will-not-join
outcome, whatever `lateJoinChance` and the draws; a profile with
`noShowChance = 0` and `lateJoinChance = 0` always yields the on-time
outcome with a delay in [1000, 10000] ms. -/
theorem joinTiming_noShow_and_onTime :
    (∀ (p : JoinProfile) (d1 d2 d3 : ℚ), p.noShowChance = 1 → 0 ≤ d1 → d1 < 1 →
      (calculateJoinTiming p d1 d2 d3).shouldJoin = false ∧
        (calculateJoinTiming p d1 d2 d3).reason = "no-show") ∧
    (∀ (p : JoinProfile) (d1 d2 d3 : ℚ), p.noShowChance = 0 → p.lateJoinChance = 0 →
      0 ≤ d1 → 0 ≤ d2 → 0 ≤ d3 → d3 < 1 →
      (calculateJoinTiming p d1 d2 d3).shouldJoin = true ∧
        (calculateJoinTiming p d1 d2 d3).reason = "on-time" ∧
        1000 ≤ (calculateJoinTiming p d1 d2 d3).delay ∧
        (calculateJoinTiming p d1 d2 d3).delay ≤ 10000) := by
  constructor
  · intro p d1 d2 d3 hns h0 h1
    rw [calculateJoinTiming, if_pos (by rw [hns]; exact h1)]
    exact ⟨rfl, rfl⟩
  · intro p d1 d2 d3 hns hlate h1 h2 h3 h4
    have hd := randomDelay_bounds 1000 10000 d3 (by norm_num) h3 h4
    rw [calculateJoinTiming, if_neg (by rw [hns]; exact not_lt.mpr h1),
      if_neg (by rw [hlate]; exact not_lt.mpr h2)]
    exact ⟨rfl, rfl, hd.1, hd.2⟩

theorem joinTiming_noShow_and_onTime_witness :
    (calculateJoinTiming ⟨1/2, 1⟩ (1/2) 0 0).shouldJoin = false ∧
    (calculateJoinTiming ⟨0, 0⟩ 0 0 (1/2)).shouldJoin = true ∧
    (calculateJoinTiming ⟨0, 0⟩ 0 0 (1/2)).reason = "on-time" ∧
    1000 ≤ (calculateJoinTiming ⟨0, 0⟩ 0 0 (1/2)).delay ∧
    (calculateJoinTiming ⟨0, 0⟩ 0 0 (1/2)).delay ≤ 10000 := by
  have ha := (joinTiming_noShow_and_onTime.1 ⟨1/2, 1⟩ (1/2) 0 0 rfl (by norm_num)
    (by norm_num)).1
  have hb := joinTiming_noShow_and_onTime.2 ⟨0, 0⟩ 0 0 (1/2) rfl rfl le_rfl le_rfl
    (by norm_num) (by norm_num)
  exact ⟨ha, hb.1, hb.2.1, hb.2.2.1, hb.2.2.2⟩

theorem weightedRandomGo_lt (ws : List ℚ) (rem : ℚ) (i : ℕ) (h : ws ≠ []) :
    weightedRandomGo ws rem i < i + ws.length := by
  induction ws generalizing rem i with
  | nil => exact absurd rfl h
  | cons w ws ih =>
    rw [weightedRandomGo]
    split
    · simp
    · cases ws with
      | nil => simp [weightedRandomGo]
      | cons w' ws' =>
        have := ih (rem - w) (i + 1) (by simp)
        simpa [Nat.add_comm, Nat.add_assoc, Nat.add_left_comm] using this

theorem weightedRandom_lt (ws : List ℚ) (r : ℚ) (h : ws ≠ []) :
    weightedRandom ws r < ws.length := by
  simpa [weightedRandom] using weightedRandomGo_lt ws (r * ws.sum) 0 h

theorem biasedWeights_length (n : ℕ) : (biasedWeights n).length = n := by
  rw [biasedWeights, List.length_map, List.length_range]

theorem floor_mul_toNat_lt (r : ℚ) (m : ℕ) (h0 : 0 ≤ r) (h1 : r < 1) (hm : 0 < m) :
    (⌊r * (m : ℚ)⌋).toNat < m := by
  have hmq : (0 : ℚ) < (m : ℚ) := by exact_mod_cast hm
  have hub : r * (m : ℚ) < (m : ℚ) := by nlinarith
  have hfu : ⌊r * (m : ℚ)⌋ < (m : ℤ) := Int.floor_lt.mpr (by push_cast; exact hub)
  have hfl : 0 ≤ ⌊r * (m : ℚ)⌋ := Int.floor_nonneg.mpr (mul_nonneg h0 hmq.le)
  omega

/-- C10: for a non-empty options list, `selectAnswer` always returns an
in-range index, for every branch and every draw in [0,1), provided a
known correct index is itself in range with at least two options. -/
theorem selectAnswer_index_in_range :
    ∀ (n : ℕ) (correctIndex : Option ℕ) (shouldBeCorrect : Bool) (selDraw : ℚ),
      0 < n → 0 ≤ selDraw → selDraw < 1 →
      (∀ c, correctIndex = some c → c < n ∧ 2 ≤ n) →
      (selectAnswerIndex n correctIndex shouldBeCorrect selDraw).index < n := by
  intro n correctIndex shouldBeCorrect selDraw hn h0 h1 hc
  match correctIndex with
  | none =>
    cases shouldBeCorrect with
    | true =>
      have hne : biasedWeights n ≠ [] := by
        intro habs
        have := biasedWeights_length n
        rw [habs] at this
        simp at this
        omega
      have := weightedRandom_lt (biasedWeights n) selDraw hne
      rw [biasedWeights_length] at this
      simpa [selectAnswerIndex] using this
    | false =>
      simpa [selectAnswerIndex] using floor_mul_toNat_lt selDraw n h0 h1 hn
  | some c =>
    obtain ⟨hcn, hn2⟩ := hc c rfl
    cases shouldBeCorrect with
    | true => simpa [selectAnswerIndex] using hcn
    | false =>
      simp only [selectAnswerIndex]
      set wrongIndices := (List.range n).filter (· ≠ c) with hw
      have hmem : ∀ j ∈ wrongIndices, j < n := by
        intro j hj
        rw [hw, List.mem_filter] at hj
        exact List.mem_range.mp hj.1
      have hlen : 0 < wrongIndices.length := by
        apply List.length_pos.mpr
        intro habs
        have h0mem : (0 : ℕ) ∈ wrongIndices ∨ (1 : ℕ) ∈ wrongIndices := by
          by_cases hc0 : c = 0
          · right
            rw [hw, List.mem_filter]
            exact ⟨List.mem_range.mpr (by omega), by simp [hc0]⟩
          · left
            rw [hw, List.mem_filter]
            exact ⟨List.mem_range.mpr (by omega), by simp [Ne.symm, hc0]⟩
        rcases h0mem with hm | hm <;> simp [habs] at hm
      have hidx : (⌊selDraw * wrongIndices.length⌋).toNat < wrongIndices.length :=
        floor_mul_toNat_lt selDraw wrongIndices.length h0 h1 hlen
      have := List.getD_eq_getElem wrongIndices 0 hidx
      rw [this]
      exact hmem _ (List.getElem_mem hidx)

theorem selectAnswer_index_in_range_witness :
    (selectAnswerIndex 4 (some 1) false (1/2)).index < 4 :=
  selectAnswer_index_in_range 4 (some 1) false (1/2) (by norm_num) (by norm_num)
    (by norm_num) (fun c hc => by cases hc; omega)

theorem detectState_gameEnded_cases (snap : Snapshot) (current : GameState)
    (hge : hasGameEndedKeywords snap = true) :
    detectState snap current = .registration ∨ detectState snap current = .gameEnded := by
  rw [hasGameEndedKeywords] at hge
  rw [detectState]
  by_cases h1 : (strIncludes snap.pageText "welcome back" ||
      strIncludes snap.pageText "continue playing") = true
  · rw [if_pos h1]; left; rfl
  · rw [if_neg h1]
    by_cases h2 : snap.hasRegistrationForm = true
    · rw [if_pos h2]; left; rfl
    · rw [if_neg h2, if_pos hge]; right; rfl

/-- C5 counterexample: a snapshot whose text simultaneously matches the
returning-player keywords and the game-ended keywords, with an answer
control visible and a positive parsed timer, is classified as
`registration` (rule 1), not `gameEnded`. -/
theorem detectState_precedence_counterexample :
    hasGameEndedKeywords ⟨"welcome back you finished 1:30", 1, false⟩ = true ∧
    (Snapshot.mk "welcome back you finished 1:30" 1 false).answerButtonCount > 0 ∧
    timerSeconds ⟨"welcome back you finished 1:30", 1, false⟩ > 0 ∧
    detectState ⟨"welcome back you finished 1:30", 1, false⟩ .unknown ≠ .gameEnded := by
  refine ⟨by decide, by decide, by decide, by decide⟩

/-- C5 (amended): whenever the game-ended keyword set matches while
answer controls are present and the parsed timer is positive, the
detector never resolves to `question`; and it resolves to `gameEnded`
provided neither returning-player markers nor a registration form field
is present (rules 1 and 2 still precede rule 3). -/
theorem detectState_gameEnded_precedes_question :
    ∀ (snap : Snapshot) (current : GameState),
      hasGameEndedKeywords snap = true →
      snap.answerButtonCount > 0 →
      timerSeconds snap > 0 →
      (hasReturningPlayerKeywords snap = false → snap.hasRegistrationForm = false →
        detectState snap current = .gameEnded) ∧
      detectState snap current ≠ .question := by
  intro snap current hge _hbtn _htimer
  constructor
  · intro hrp hform
    rw [hasReturningPlayerKeywords, Bool.or_eq_false_iff] at hrp
    rw [hasGameEndedKeywords] at hge
    rw [detectState, if_neg (by rw [hrp.1, hrp.2]; simp), if_neg (by rw [hform]; simp),
      if_pos hge]
  · rcases detectState_gameEnded_cases snap current hge with h | h <;> rw [h] <;>
      intro habs <;> cases habs

theorem detectState_gameEnded_precedes_question_witness :
    detectState ⟨"you finished 1:30", 2, false⟩ .unknown = .gameEnded ∧
    detectState ⟨"you finished 1:30", 2, false⟩ .unknown ≠ .question := by
  have h := detectState_gameEnded_precedes_question ⟨"you finished 1:30", 2, false⟩
    .unknown (by decide) (by decide) (by decide)
  exact ⟨h.1 (by decide) rfl, h.2⟩

theorem getResultsFold (results : List (String × RecordedResult)) (acc : PoolResults) :
    results.foldl
      (fun acc kv =>
        if countsAsCompleted kv.2 then { acc with completed := acc.completed + 1 }
        else { acc with failed := acc.failed + 1 }) acc
    = { completed := acc.completed + (results.countP fun kv => countsAsCompleted kv.2),
        failed := acc.failed + (results.countP fun kv => !countsAsCompleted kv.2) } := by
  induction results generalizing acc with
  | nil => simp
  | cons kv kvs ih =>
    rw [List.foldl_cons, ih]
    by_cases h : countsAsCompleted kv.2 = true <;>
      simp [List.countP_cons, h] <;> omega

theorem countP_not_add (results : List (String × RecordedResult)) :
    (results.countP fun kv => countsAsCompleted kv.2)
      + (results.countP fun kv => !countsAsCompleted kv.2) = results.length := by
  induction results with
  | nil => simp
  | cons kv kvs ih =>
    by_cases h : countsAsCompleted kv.2 = true <;>
      simp [List.countP_cons, h] <;> omega

/-- C4 counterexample: an agent whose join decision is a designed
no-show makes `run` return `null`; the recorded `null` carries no error,
yet `getResults` counts that player as failed, not completed. -/
theorem getResults_noShow_counterexample :
    recordOutcome (runOutcome (calculateJoinTiming ⟨0, 1⟩ 0 0 0) true GameResults.init)
      = .nullResult ∧
    RecordedResult.hasError .nullResult = false ∧
    countsAsCompleted .nullResult = false ∧
    getResults [("p1", .nullResult)] = { completed := 0, failed := 1 } := by
  refine ⟨by decide, rfl, rfl, by decide⟩

/-- C4 (amended): `getResults` counts a player as completed iff its
recorded result is a non-null result object with no error recorded
(the JS test `result && !result.error`), and as failed otherwise — in
particular the `null` record left by a designed join refusal carries no
error yet is counted failed; completed and failed partition all recorded
players. -/
theorem getResults_partition :
    ∀ results : List (String × RecordedResult),
      (getResults results).completed = (results.countP fun kv => countsAsCompleted kv.2) ∧
      (getResults results).failed = (results.countP fun kv => !countsAsCompleted kv.2) ∧
      (getResults results).completed + (getResults results).failed = results.length ∧
      (∀ r : RecordedResult,
        countsAsCompleted r = true ↔ (r ≠ .nullResult ∧ r.hasError = false)) ∧
      (∀ (jt : JoinTiming) (started : Bool) (g : GameResults), jt.shouldJoin = false →
        (recordOutcome (runOutcome jt started g)).hasError = false ∧
        countsAsCompleted (recordOutcome (runOutcome jt started g)) = false) := by
  intro results
  have hf := getResultsFold results { completed := 0, failed := 0 }
  refine ⟨?_, ?_, ?_, ?_, ?_⟩
  · rw [getResults, hf]; simp
  · rw [getResults, hf]; simp
  · rw [getResults, hf]
    simpa using countP_not_add results
  · intro r
    cases r <;> simp [countsAsCompleted, RecordedResult.hasError]
  · intro jt started g hjoin
    rw [runOutcome, if_pos (by rw [hjoin]; rfl)]
    exact ⟨rfl, rfl⟩

theorem getResults_partition_witness :
    (getResults [("a", .ok GameResults.init), ("b", .err "boom"),
      ("c", .nullResult)]).completed = 1 ∧
    (getResults [("a", .ok GameResults.init), ("b", .err "boom"),
      ("c", .nullResult)]).failed = 2 ∧
    countsAsCompleted (recordOutcome (runOutcome ⟨false, 0, "no-show"⟩ true
      GameResults.init)) = false := by
  have h := getResults_partition [("a", .ok GameResults.init), ("b", .err "boom"),
    ("c", .nullResult)]
  refine ⟨?_, ?_,
    (h.2.2.2.2 ⟨false, 0, "no-show"⟩ true GameResults.init rfl).2⟩
  · rw [h.1]; decide
  · rw [h.2.1]; decide

/-- C2 counterexample: an idle, not-yet-initialized session with an empty
roster does fail `start()` with the configuration error, but only after
the implicit `initialize()` has already moved the status from `idle` to
`initializing` — the lifecycle status does not stay unchanged. -/
theorem start_status_counterexample :
    Session.startPrelude
        { status := .idle, hasPool := false, playerCount := 0, gameUrl := "http://game" }
      = .error (.noPlayers,
        { status := .initializing, hasPool := true, playerCount := 0,
          gameUrl := "http://game" }) ∧
    SessionStatus.initializing ≠ SessionStatus.idle := by
  exact ⟨rfl, by decide⟩

/-- C2 (amended): for a session with an empty roster or an empty target
URL, `start()` fails with a configuration error before reaching
`running`, provided the pool already exists or the session is still
`idle`; the status is untouched when the pool already exists, while an
uninitialized idle session is first moved to `initializing` by the
implicit `initialize()` and fails only after that transition. -/
theorem start_config_error_no_run :
    ∀ s : Session, (s.playerCount = 0 ∨ s.gameUrl = "") →
      (s.hasPool = true ∨ s.status = .idle) →
      ∃ e s', s.startPrelude = .error (e, s') ∧ e.isConfig = true ∧
        (s.hasPool = true → s' = s) ∧
        (s.hasPool = false → s'.status = .initializing ∧ s'.hasPool = true ∧
          s'.playerCount = s.playerCount ∧ s'.gameUrl = s.gameUrl) := by
  intro s hcfg hpool
  by_cases hp : s.hasPool = true
  · by_cases hpc : s.playerCount = 0
    · refine ⟨.noPlayers, s, ?_, rfl, fun _ => rfl, fun hf => absurd hp (by simp [hf])⟩
      rw [Session.startPrelude, if_pos hp]
      simp [hpc]
    · have hurl : s.gameUrl = "" := hcfg.resolve_left hpc
      refine ⟨.noUrl, s, ?_, rfl, fun _ => rfl, fun hf => absurd hp (by simp [hf])⟩
      rw [Session.startPrelude, if_pos hp]
      simp [hpc, hurl]
  · have hidle : s.status = .idle := hpool.resolve_left hp
    have hinit : s.initializeStep
        = .ok { s with status := .initializing, hasPool := true } := by
      rw [Session.initializeStep, if_neg (by rw [hidle]; simp)]
    by_cases hpc : s.playerCount = 0
    · refine ⟨.noPlayers, { s with status := .initializing, hasPool := true }, ?_, rfl,
        fun ht => absurd ht hp, fun _ => ⟨rfl, rfl, rfl, rfl⟩⟩
      rw [Session.startPrelude, if_neg hp, hinit]
      simp [hpc]
    · have hurl : s.gameUrl = "" := hcfg.resolve_left hpc
      refine ⟨.noUrl, { s with status := .initializing, hasPool := true }, ?_, rfl,
        fun ht => absurd ht hp, fun _ => ⟨rfl, rfl, rfl, rfl⟩⟩
      rw [Session.startPrelude, if_neg hp, hinit]
      simp [hpc, hurl]

theorem start_config_error_no_run_witness :
    ∃ e s',
      Session.startPrelude
          { status := .idle, hasPool := false, playerCount := 3, gameUrl := "" }
        = .error (e, s') ∧ e.isConfig = true ∧
      ((Session.mk .idle false 3 "").hasPool = true → s' = Session.mk .idle false 3 "") ∧
      ((Session.mk .idle false 3 "").hasPool = false → s'.status = .initializing ∧
        s'.hasPool = true ∧ s'.playerCount = 3 ∧ s'.gameUrl = "") :=
  start_config_error_no_run
    ({ status := .idle, hasPool := false, playerCount := 3, gameUrl := "" } : Session)
    (Or.inr rfl) (Or.inr rfl)

theorem botStep_maxRetries (s : BotState) (e : BotEvent) :
    (botStep s e).maxRetries = s.maxRetries := by
  cases e with
  | recovery ok =>
    simp only [botStep, attemptRecovery]
    split <;> rfl
  | joinSuccess => rfl

theorem botRun_no_join (s : BotState) (evs : List BotEvent)
    (h : ∀ e ∈ evs, e ≠ .joinSuccess) :
    s.retryCount ≤ (botRun s evs).retryCount ∧
      (botRun s evs).maxRetries = s.maxRetries := by
  induction evs generalizing s with
  | nil => exact ⟨le_rfl, rfl⟩
  | cons e es ih =>
    have he : e ≠ .joinSuccess := h e (List.mem_cons_self e es)
    have hrest : ∀ x ∈ es, x ≠ .joinSuccess := fun x hx => h x (List.mem_cons_of_mem e hx)
    obtain ⟨h1, h2⟩ := ih (botStep s e) hrest
    rw [botRun]
    cases e with
    | joinSuccess => exact absurd rfl he
    | recovery ok =>
      refine ⟨le_trans ?_ h1, h2.trans (botStep_maxRetries s (.recovery ok))⟩
      simp only [botStep, attemptRecovery]
      split
      · simp
      · simp

/-- C3: the lifetime recovery counter is reset to zero only by a
confirmed successful join (never by a successful recovery, which always
leaves the counter one higher), and once it has reached the budget,
`attemptRecovery` refuses — returning `false` and clearing `isRunning`;
absent a join success the counter never decreases, so the refusal is
permanent. -/
theorem retry_budget_policy :
    (∀ (s : BotState) (ok : Bool), s.retryCount < s.maxRetries →
      (attemptRecovery s ok).1 = ok ∧
      (attemptRecovery s ok).2.retryCount = s.retryCount + 1 ∧
      (attemptRecovery s ok).2.isRunning = s.isRunning) ∧
    (∀ (s : BotState) (ok : Bool), s.maxRetries ≤ s.retryCount →
      (attemptRecovery s ok).1 = false ∧
      (attemptRecovery s ok).2.isRunning = false ∧
      (attemptRecovery s ok).2.retryCount = s.retryCount) ∧
    (∀ s : BotState, (joinSucceeded s).retryCount = 0) ∧
    (∀ (s : BotState) (evs : List BotEvent), (∀ e ∈ evs, e ≠ .joinSuccess) →
      s.retryCount ≤ (botRun s evs).retryCount) ∧
    (∀ (s : BotState) (evs : List BotEvent) (ok : Bool),
      s.maxRetries ≤ s.retryCount → (∀ e ∈ evs, e ≠ .joinSuccess) →
      (attemptRecovery (botRun s evs) ok).1 = false ∧
      (attemptRecovery (botRun s evs) ok).2.isRunning = false) := by
  refine ⟨?_, ?_, fun s => rfl, ?_, ?_⟩
  · intro s ok h
    rw [attemptRecovery, if_neg (not_le.mpr h)]
    exact ⟨rfl, rfl, rfl⟩
  · intro s ok h
    rw [attemptRecovery, if_pos h]
    exact ⟨rfl, rfl, rfl⟩
  · intro s evs h
    exact (botRun_no_join s evs h).1
  · intro s evs ok hbudget hnojoin
    obtain ⟨h1, h2⟩ := botRun_no_join s evs hnojoin
    have : (botRun s evs).maxRetries ≤ (botRun s evs).retryCount := by
      rw [h2]; omega
    rw [attemptRecovery, if_pos this]
    exact ⟨rfl, rfl⟩

theorem retry_budget_policy_witness :
    (attemptRecovery ⟨2, 3, true⟩ true).1 = true ∧
    (attemptRecovery ⟨2, 3, true⟩ true).2.retryCount = 3 ∧
    (attemptRecovery ⟨3, 3, true⟩ true).1 = false ∧
    (attemptRecovery ⟨3, 3, true⟩ true).2.isRunning = false ∧
    (joinSucceeded ⟨2, 3, true⟩).retryCount = 0 ∧
    (⟨1, 3, true⟩ : BotState).retryCount
      ≤ (botRun ⟨1, 3, true⟩ [.recovery true, .recovery false]).retryCount ∧
    (attemptRecovery (botRun ⟨3, 3, true⟩ [.recovery true]) false).1 = false := by
  have h1 := retry_budget_policy.1 ⟨2, 3, true⟩ true (by norm_num)
  have h2 := retry_budget_policy.2.1 ⟨3, 3, true⟩ true (by norm_num)
  have h3 := retry_budget_policy.2.2.1 ⟨2, 3, true⟩
  have h4 := retry_budget_policy.2.2.2.1 ⟨1, 3, true⟩ [.recovery true, .recovery false]
    (by intro e he; fin_cases he <;> decide)
  have h5 := retry_budget_policy.2.2.2.2 ⟨3, 3, true⟩ [.recovery true] false
    (by norm_num) (by intro e he; fin_cases he; decide)
  exact ⟨h1.1, h1.2.1, h2.1, h2.2.1, h3, h4, h5.1⟩

/-- C6 counterexample: after ten consecutive `Error` classifications the
agent's loop does stop, but the outcome it reports carries no error and
the pool aggregates it under completed — no failure outcome is
reported. -/
theorem error_threshold_counterexample :
    (playGame GameResults.init (List.replicate 10 .errorPhase)).isRunning = false ∧
    (recordOutcome (.returned (playGame GameResults.init
      (List.replicate 10 .errorPhase)).results)).hasError = false ∧
    getResults [("agent", recordOutcome (.returned (playGame GameResults.init
      (List.replicate 10 .errorPhase)).results))] = { completed := 1, failed := 0 } := by
  refine ⟨by decide, by decide, by decide⟩

/-- C6 (amended): ten consecutive `Error` classifications (threshold 10)
stop the agent's dispatch loop — fewer than ten leave it running — and
the loop returns the agent's partial results without raising; the
recorded outcome carries no error, so the pool counts this agent as
completed, and a sibling agent's recorded outcome is aggregated
independently and untouched. -/
theorem error_threshold_stops_agent :
    ∀ (g : GameResults) (k : ℕ) (sibling : RecordedResult),
      (k < 10 → (playGame g (List.replicate k .errorPhase)).isRunning = true) ∧
      (playGame g (List.replicate 10 .errorPhase)).isRunning = false ∧
      (playGame g (List.replicate 10 .errorPhase)).errorCount = 10 ∧
      (playGame g (List.replicate 10 .errorPhase)).results = g ∧
      (recordOutcome (.returned (playGame g
        (List.replicate 10 .errorPhase)).results)).hasError = false ∧
      getResults [("agent", recordOutcome (.returned (playGame g
          (List.replicate 10 .errorPhase)).results)), ("sibling", sibling)]
        = { completed := 1 + (if countsAsCompleted sibling then 1 else 0),
            failed := if countsAsCompleted sibling then 0 else 1 } := by
  intro g k sibling
  refine ⟨?_, rfl, rfl, rfl, rfl, ?_⟩
  · intro hk
    interval_cases k <;> rfl
  · cases sibling <;> rfl

theorem error_threshold_stops_agent_witness :
    (playGame GameResults.init (List.replicate 9 .errorPhase)).isRunning = true ∧
    (playGame GameResults.init (List.replicate 10 .errorPhase)).isRunning = false ∧
    getResults [("agent", recordOutcome (.returned (playGame GameResults.init
        (List.replicate 10 .errorPhase)).results)), ("sibling", .err "boom")]
      = { completed := 1, failed := 1 } := by
  have h := error_threshold_stops_agent GameResults.init 9 (.err "boom")
  refine ⟨h.1 (by norm_num), h.2.1, ?_⟩
  rw [h.2.2.2.2.2]
  decide

theorem poolInv_init (n mc : ℕ) : PoolInv n mc (poolInit n) := by
  by_cases hn : 0 < n
  · simp only [PoolInv, poolInit, PoolState.activeCount, if_pos hn]
    refine ⟨le_rfl, Nat.zero_le n, by omega, ?_, ?_, fun _ => hn⟩
    · intro h; exact nomatch h
    · intro h; exact nomatch h
  · simp only [PoolInv, poolInit, PoolState.activeCount, if_neg hn]
    refine ⟨le_rfl, Nat.zero_le n, by omega, ?_, fun _ => by omega, ?_⟩
    · intro h; exact nomatch h
    · intro h; exact nomatch h

theorem poolStep_inv {n mc : ℕ} {s s' : PoolState} (hs : PoolInv n mc s)
    (hstep : PoolStep n mc s s') : PoolInv n mc s' := by
  obtain ⟨h1, h2, h3, h4, h5, h6⟩ := hs
  cases hstep with
  | gatePass hpc hlt hact =>
    refine ⟨h1, h2, h3, fun _ => ⟨hact, hlt⟩, ?_, ?_⟩
    · intro h; exact nomatch h
    · intro h; exact nomatch h
  | launch hpc =>
    obtain ⟨hact, hlt⟩ := h4 hpc
    simp only [PoolState.activeCount] at hact h3
    refine ⟨?_, ?_, ?_, ?_, ?_, ?_⟩ <;> dsimp only [PoolState.activeCount]
    · omega
    · omega
    · omega
    · intro h
      split at h
      · exact nomatch h
      · exact nomatch h
    · intro h
      split at h
      · exact nomatch h
      · omega
    · intro h
      split at h
      · assumption
      · exact nomatch h
  | complete hlt =>
    simp only [PoolState.activeCount] at h3 h4
    refine ⟨?_, ?_, ?_, ?_, ?_, ?_⟩ <;> dsimp only [PoolState.activeCount]
    · omega
    · exact h2
    · omega
    · intro h
      obtain ⟨ha, hb⟩ := h4 h
      exact ⟨by omega, hb⟩
    · exact h5
    · exact h6

theorem poolReachable_inv {n mc : ℕ} {s : PoolState} (h : PoolReachable n mc s) :
    PoolInv n mc s := by
  induction h with
  | refl => exact poolInv_init n mc
  | tail _ hstep ih => exact poolStep_inv ih hstep

theorem poolStuck_all_launched {n mc : ℕ} {s : PoolState} (hmc : 0 < mc)
    (hinv : PoolInv n mc s) (hstuck : PoolStuck n mc s) :
    s.launched = n ∧ s.completed = n := by
  obtain ⟨h1, h2, h3, _h4, h5, h6⟩ := hinv
  have hcomp : ¬ s.completed < s.launched := fun h =>
    hstuck _ (PoolStep.complete s h)
  have hpg : s.pc ≠ .passedGate := fun h => hstuck _ (PoolStep.launch s h)
  have hag : s.pc ≠ .atGate := by
    intro h
    refine hstuck _ (PoolStep.gatePass s h (h6 h) ?_)
    simp only [PoolState.activeCount]
    omega
  cases hpc : s.pc with
  | atGate => exact absurd hpc hag
  | passedGate => exact absurd hpc hpg
  | done =>
    have := h5 hpc
    omega

/-- C1: along every interleaving of the `startAll` admission loop with
the settling of launched runs, the size of `activeBots` never exceeds
`maxConcurrent`, even between the gate check and the launch; and for the
3-profile roster with bound 2, every maximal schedule ends only once all
3 agents have been launched (and settled) — a terminating schedule
reaching that point exists. -/
theorem startAll_concurrency_bound :
    (∀ (n mc : ℕ) (s : PoolState), PoolReachable n mc s → s.activeCount ≤ mc) ∧
    (∀ s : PoolState, PoolReachable 3 2 s → PoolStuck 3 2 s →
      s.launched = 3 ∧ s.completed = 3) ∧
    (∃ s : PoolState, PoolReachable 3 2 s ∧ PoolStuck 3 2 s ∧ s.launched = 3) := by
  refine ⟨fun n mc s h => (poolReachable_inv h).2.2.1,
    fun s h hstuck => poolStuck_all_launched (by norm_num) (poolReachable_inv h) hstuck,
    ?_⟩
  have r0 : PoolReachable 3 2 ⟨0, 0, .atGate⟩ := Relation.ReflTransGen.refl
  have r1 : PoolReachable 3 2 ⟨0, 0, .passedGate⟩ :=
    r0.tail (PoolStep.gatePass _ rfl (by norm_num) (by decide))
  have r2 : PoolReachable 3 2 ⟨1, 0, .atGate⟩ := r1.tail (PoolStep.launch _ rfl)
  have r3 : PoolReachable 3 2 ⟨1, 0, .passedGate⟩ :=
    r2.tail (PoolStep.gatePass _ rfl (by norm_num) (by decide))
  have r4 : PoolReachable 3 2 ⟨2, 0, .atGate⟩ := r3.tail (PoolStep.launch _ rfl)
  have r5 : PoolReachable 3 2 ⟨2, 1, .atGate⟩ :=
    r4.tail (PoolStep.complete _ (by norm_num))
  have r6 : PoolReachable 3 2 ⟨2, 1, .passedGate⟩ :=
    r5.tail (PoolStep.gatePass _ rfl (by norm_num) (by decide))
  have r7 : PoolReachable 3 2 ⟨3, 1, .done⟩ := r6.tail (PoolStep.launch _ rfl)
  have r8 : PoolReachable 3 2 ⟨3, 2, .done⟩ :=
    r7.tail (PoolStep.complete _ (by norm_num))
  have r9 : PoolReachable 3 2 ⟨3, 3, .done⟩ :=
    r8.tail (PoolStep.complete _ (by norm_num))
  refine ⟨⟨3, 3, .done⟩, r9, ?_, rfl⟩
  intro s' hstep
  cases hstep with
  | gatePass hpc _ _ => exact absurd hpc (by decide)
  | launch hpc => exact absurd hpc (by decide)
  | complete hlt => exact absurd hlt (by decide)

theorem startAll_concurrency_bound_witness :
    (poolInit 3).activeCount ≤ 2 ∧ (poolInit 0).activeCount ≤ 5 :=
  ⟨startAll_concurrency_bound.1 3 2 (poolInit 3) Relation.ReflTransGen.refl,
    startAll_concurrency_bound.1 0 5 (poolInit 0) Relation.ReflTransGen.refl⟩

end TriviaBots
